import Mathlib

/-!
# no-slop: background counters, message router and popup refresh loop

A shallow embedding of `src/background.js` and `src/popup.js`.

Modelling conventions
* JavaScript numbers that hold counters and `Date.now()` readings are exact
  integers (`Int`); every value the program handles is an integer far inside
  the safe-integer range, where `+`, `-` and `>` on doubles are exact.
* `Date.now()` is an explicit argument `now`.
* The two storage partitions are a record holding the value stored under the
  only key each of them is used with (`stats` in `chrome.storage.local`,
  `settings` in `chrome.storage.sync`); `none` means the key is absent.  A
  `set` is modelled as completing.
* An `async` method runs synchronously up to its first `await`; all the
  mutations of `updateStats` happen before its only `await`.
-/

namespace NoSlop

/-! ## Data model (background.js) -/

/-- The counter triple held in `this.stats` (background.js lines 6-10). -/
structure Stats where
  tweetsScanned : Int
  tweetsBlocked : Int
  lastReset : Int
  deriving DecidableEq, Repr

/-- A settings object.  The fields that the popup fallback object
(popup.js lines 59-66) does not carry are optional. -/
structure Settings where
  enabled : Bool
  mode : String
  threshold : Rat
  showStats : Option Bool
  whitelistedAccounts : List String
  customRules : Option (List String)
  telemetryEnabled : Option Bool
  deriving DecidableEq, Repr

/-- The durable store: key `stats` of `chrome.storage.local` and key
`settings` of `chrome.storage.sync`. -/
structure Storage where
  localStats : Option Stats
  syncSettings : Option Settings
  deriving DecidableEq, Repr

/-- The background service: its in-memory counters together with the durable
store it writes to. -/
structure BackgroundService where
  stats : Stats
  storage : Storage
  deriving DecidableEq, Repr

/-- The constant `dayInMs = 24 * 60 * 60 * 1000` (background.js line 52). -/
def dayInMs : Int := 24 * 60 * 60 * 1000

/-- The object literal `defaultSettings` (background.js lines 32-40). -/
def defaultSettings : Settings :=
  { enabled := true
    mode := "block"
    threshold := 7 / 10
    showStats := some true
    whitelistedAccounts := []
    customRules := some []
    telemetryEnabled := some false }

/-- The in-memory effect of `updateStats(scanned, blocked)` on `this.stats`
(background.js lines 47-57): both totals are incremented first, then the
rollover test overwrites them. -/
def updateCounters (stats : Stats) (now scanned blocked : Int) : Stats :=
  let s1 : Stats := { stats with tweetsScanned := stats.tweetsScanned + scanned }
  let s2 : Stats := { s1 with tweetsBlocked := s1.tweetsBlocked + blocked }
  if now - s2.lastReset > dayInMs then
    { tweetsScanned := scanned, tweetsBlocked := blocked, lastReset := now }
  else
    s2

/-- The method `updateStats` (background.js lines 46-60): mutate the counters,
then write them under key `stats` of the local partition. -/
def BackgroundService.updateStats (svc : BackgroundService) (now scanned blocked : Int) :
    BackgroundService :=
  let stats := updateCounters svc.stats now scanned blocked
  { stats := stats, storage := { svc.storage with localStats := some stats } }

/-- The method `getStats` (background.js lines 62-64): the value the returned
promise resolves with. -/
def BackgroundService.getStats (svc : BackgroundService) : Stats :=
  svc.stats

/-- The method `setDefaultSettings` (background.js lines 31-44): two
unconditional writes. -/
def BackgroundService.setDefaultSettings (svc : BackgroundService) : BackgroundService :=
  { svc with storage := { localStats := some svc.stats, syncSettings := some defaultSettings } }

/-- The `chrome.runtime.onInstalled` listener registered by
`initializeExtension` (background.js lines 17-22); `reason` is
`details.reason`. -/
def onInstalled (svc : BackgroundService) (reason : String) : BackgroundService :=
  if reason = "install" then svc.setDefaultSettings else svc

/-- A message received by the `chrome.runtime.onMessage` listener: its `type`
and the two payload fields that `UPDATE_STATS` reads. -/
structure Request where
  type : String
  scanned : Int
  blocked : Int
  deriving DecidableEq, Repr

/-- The argument of a `sendResponse` call. -/
inductive Response where
  | success (ok : Bool)
  | stats (stats : Stats)
  | settings (settings : Option Settings)
  | error (message : String)
  deriving DecidableEq, Repr

/-- A promise with a `then` callback that is still pending when the listener
returns: `getStats` carries the value `backgroundService.getStats()` resolves
with, `getSettings` is the read `chrome.storage.sync.get(['settings'])`. -/
inductive Deferred where
  | getStats (stats : Stats)
  | getSettings
  deriving DecidableEq, Repr

/-- What one run of the listener leaves behind: the service, the
`sendResponse` calls made before the listener returned, whether it returned
`true`, and the promises left pending. -/
structure Dispatch where
  service : BackgroundService
  replies : List Response
  returnsTrue : Bool
  pending : List Deferred
  deriving DecidableEq, Repr

/-- The `chrome.runtime.onMessage` listener (background.js lines 71-93).  The
`UPDATE_STATS` case ends in `break`, so the listener returns `undefined`
there, as it does after the `default` case. -/
def onMessage (svc : BackgroundService) (now : Int) (request : Request) : Dispatch :=
  if request.type = "UPDATE_STATS" then
    { service := svc.updateStats now request.scanned request.blocked
      replies := [Response.success true]
      returnsTrue := false
      pending := [] }
  else if request.type = "GET_STATS" then
    { service := svc
      replies := []
      returnsTrue := true
      pending := [Deferred.getStats svc.getStats] }
  else if request.type = "GET_SETTINGS" then
    { service := svc
      replies := []
      returnsTrue := true
      pending := [Deferred.getSettings] }
  else
    { service := svc
      replies := [Response.error "Unknown message type"]
      returnsTrue := false
      pending := [] }

/-- The `sendResponse` calls made by the `then` callback of a pending promise
once it resolves; `store` is the durable store at the time the read of
`GET_SETTINGS` completes. -/
def Deferred.resolve (store : Storage) : Deferred → List Response
  | Deferred.getStats stats => [Response.stats stats]
  | Deferred.getSettings => [Response.settings store.syncSettings]

/-- Every `sendResponse` call caused by one message: the synchronous ones,
then those of the pending promises once resolved. -/
def Dispatch.allReplies (d : Dispatch) (store : Storage) : List Response :=
  d.replies ++ (d.pending.map (Deferred.resolve store)).flatten

/-! ## Popup (popup.js) -/

/-- The counters object held in `this.stats` of the popup.  The fallback
literal of popup.js lines 24 and 50 has no `lastReset`. -/
structure PopupStats where
  tweetsScanned : Int
  tweetsBlocked : Int
  lastReset : Option Int
  deriving DecidableEq, Repr

/-- The counters as they arrive in the popup inside a `{ stats }` reply. -/
def Stats.toPopupStats (s : Stats) : PopupStats :=
  { tweetsScanned := s.tweetsScanned, tweetsBlocked := s.tweetsBlocked,
    lastReset := some s.lastReset }

/-- The literal `{ tweetsScanned: 0, tweetsBlocked: 0 }` (popup.js lines 24, 50). -/
def fallbackStats : PopupStats :=
  { tweetsScanned := 0, tweetsBlocked := 0, lastReset := none }

/-- The method `getDefaultSettings` (popup.js lines 59-66). -/
def getDefaultSettings : Settings :=
  { enabled := true
    mode := "block"
    threshold := 7 / 10
    showStats := none
    whitelistedAccounts := []
    customRules := none
    telemetryEnabled := none }

/-- The popup: the fields of the `PopupController` object (`settings`, `stats`,
`statsInterval`) and the part of the page it acts on: the interval timers that
are active, the id the next `setInterval` returns, the number of
`beforeunload` listeners registered by `startStatsRefresh`, the number of
calls of the redraw method `updateStats`, and whether the global
`window.popupController` refers to the controller. -/
structure PopupController where
  settings : Option Settings
  stats : Option PopupStats
  statsInterval : Option Nat
  activeIntervals : List Nat
  nextTimerId : Nat
  unloadListeners : Nat
  redraws : Nat
  windowPopupController : Bool
  deriving DecidableEq, Repr

/-- State after the constructor's field initialisers (popup.js lines 5-7) on a
fresh page; timer ids are positive. -/
def PopupController.new : PopupController :=
  { settings := none, stats := none, statsInterval := none, activeIntervals := [],
    nextTimerId := 1, unloadListeners := 0, redraws := 0, windowPopupController := false }

/-- The method `loadData` (popup.js lines 42-51); the arguments are
`settingsResponse.settings` and `statsResponse.stats`. -/
def PopupController.loadData (p : PopupController) (settingsResponse : Option Settings)
    (statsResponse : Option PopupStats) : PopupController :=
  { p with settings := some (settingsResponse.getD getDefaultSettings)
           stats := some (statsResponse.getD fallbackStats) }

/-- The redraw method `updateStats` of the popup (popup.js lines 121-138): it
only writes to the DOM, which is recorded as one more redraw. -/
def PopupController.updateStats (p : PopupController) : PopupController :=
  { p with redraws := p.redraws + 1 }

/-- The function `clearInterval`. -/
def clearInterval (p : PopupController) (id : Nat) : PopupController :=
  { p with activeIntervals := p.activeIntervals.filter (fun t => t != id) }

/-- The method `startStatsRefresh` (popup.js lines 20-40): `setInterval`
starts a timer whose id is stored in `statsInterval`, and one more
`beforeunload` listener is registered. -/
def PopupController.startStatsRefresh (p : PopupController) : PopupController :=
  { p with statsInterval := some p.nextTimerId
           activeIntervals := p.nextTimerId :: p.activeIntervals
           nextTimerId := p.nextTimerId + 1
           unloadListeners := p.unloadListeners + 1 }

/-- The interval callback (popup.js lines 22-32) from the point where the
`GET_STATS` reply has arrived; `statsResponse` is `statsResponse.stats`.  The
result is `none` when `this.stats` is `null`, where reading its field throws. -/
def statsRefreshTick (p : PopupController) (statsResponse : Option PopupStats) :
    Option PopupController :=
  match p.stats with
  | none => none
  | some cur =>
    let newStats := statsResponse.getD fallbackStats
    if newStats.tweetsScanned ≠ cur.tweetsScanned ∨
        newStats.tweetsBlocked ≠ cur.tweetsBlocked then
      some ({ p with stats := some newStats }).updateStats
    else
      some p

/-- One `beforeunload` listener (popup.js lines 35-39): the handle is tested
for truthiness, then cleared. -/
def beforeUnloadListener (p : PopupController) : PopupController :=
  match p.statsInterval with
  | some id => if id ≠ 0 then clearInterval p id else p
  | none => p

/-- The `beforeunload` event: every registered listener runs. -/
def beforeunload (p : PopupController) : PopupController :=
  Nat.iterate beforeUnloadListener p.unloadListeners p

/-- The `visibilitychange` listener (popup.js lines 201-212) together with
the one-shot timeout callback it schedules; `hidden` is `document.hidden`, the
two responses are those `loadData` receives. -/
def visibilitychange (p : PopupController) (hidden : Bool)
    (settingsResponse : Option Settings) (statsResponse : Option PopupStats) :
    PopupController :=
  if !hidden then
    if p.windowPopupController then
      (p.loadData settingsResponse statsResponse).updateStats
    else
      p
  else
    p

/-- The method `init` (popup.js lines 11-18): `loadData`, then `updateUI`
(which redraws the counters), then `startStatsRefresh`. -/
def PopupController.init (p : PopupController) (settingsResponse : Option Settings)
    (statsResponse : Option PopupStats) : PopupController :=
  ((p.loadData settingsResponse statsResponse).updateStats).startStatsRefresh

/-! ## Theorems -/

theorem updateCounters_accumulate (stats : Stats) (now scanned blocked : Int)
    (h : now - stats.lastReset ≤ dayInMs) :
    updateCounters stats now scanned blocked =
      { tweetsScanned := stats.tweetsScanned + scanned
        tweetsBlocked := stats.tweetsBlocked + blocked
        lastReset := stats.lastReset } := by
  simp only [updateCounters]
  rw [if_neg (by omega)]

theorem updateCounters_rollover (stats : Stats) (now scanned blocked : Int)
    (h : now - stats.lastReset > dayInMs) :
    updateCounters stats now scanned blocked =
      { tweetsScanned := scanned, tweetsBlocked := blocked, lastReset := now } := by
  simp only [updateCounters]
  rw [if_pos h]

theorem dayInMs_eq : dayInMs = 86400000 := by
  norm_num [dayInMs]

/-- C2: when `now - lastReset > 24h`, `updateStats(s, b)` leaves
`tweetsScanned = s` and `tweetsBlocked = b` exactly (the previous totals are
discarded, also for `s = b = 0`) and sets `lastReset = now`; and from
`{0, 0, T}` the calls `updateStats(10, 3)` at `T` and `updateStats(5, 1)` at
`T + 25h` give `{5, 1, T + 25h}`. -/
theorem updateStats_after_window (svc : BackgroundService) (now s b : Int)
    (h : now - svc.stats.lastReset > dayInMs) :
    (svc.updateStats now s b).stats =
        { tweetsScanned := s, tweetsBlocked := b, lastReset := now } ∧
      (svc.updateStats now 0 0).stats =
        { tweetsScanned := 0, tweetsBlocked := 0, lastReset := now } ∧
      ∀ (T : Int) (store : Storage),
        (((BackgroundService.mk ⟨0, 0, T⟩ store).updateStats T 10 3).updateStats
            (T + 25 * 60 * 60 * 1000) 5 1).stats = ⟨5, 1, T + 25 * 60 * 60 * 1000⟩ := by
  refine ⟨?_, ?_, ?_⟩
  · simp only [BackgroundService.updateStats]
    exact updateCounters_rollover _ _ _ _ h
  · simp only [BackgroundService.updateStats]
    exact updateCounters_rollover _ _ _ _ h
  · intro T store
    simp only [BackgroundService.updateStats]
    rw [updateCounters_accumulate ⟨0, 0, T⟩ T 10 3 (by rw [dayInMs_eq]; simp)]
    rw [updateCounters_rollover _ _ _ _ (by rw [dayInMs_eq]; simp)]

theorem updateStats_after_window_witness :
    (1700000090000000 : Int) - (BackgroundService.mk ⟨10, 3, 1700000000000000⟩
        ⟨none, none⟩).stats.lastReset > dayInMs ∧
      ((BackgroundService.mk ⟨10, 3, 1700000000000000⟩ ⟨none, none⟩).updateStats
        1700000090000000 5 1).stats = ⟨5, 1, 1700000090000000⟩ :=
  ⟨by decide,
   (updateStats_after_window (BackgroundService.mk ⟨10, 3, 1700000000000000⟩ ⟨none, none⟩)
      1700000090000000 5 1 (by decide)).1⟩

/-- C7: `lastReset` never decreases under `updateStats`: for every counter
state, every clock reading `now` (also one earlier than `lastReset`) and all
deltas, `lastReset` after the call is at least `lastReset` before it. -/
theorem updateStats_lastReset_mono (svc : BackgroundService) (now s b : Int) :
    svc.stats.lastReset ≤ (svc.updateStats now s b).stats.lastReset := by
  simp only [BackgroundService.updateStats]
  by_cases h : now - svc.stats.lastReset > dayInMs
  · rw [updateCounters_rollover _ _ _ _ h]
    rw [dayInMs_eq] at h
    show svc.stats.lastReset ≤ now
    omega
  · rw [updateCounters_accumulate _ _ _ _ (by omega)]

/-- C9: `tweetsBlocked ≤ tweetsScanned` is preserved by `updateStats(s, b)`
whenever it holds before the call and the deltas satisfy `b ≤ s` (for all
integer deltas, in particular all non-negative ones), in the accumulate branch
and in the rollover branch. -/
theorem updateStats_blocked_le_scanned (svc : BackgroundService) (now s b : Int)
    (hbs : b ≤ s)
    (hinv : svc.stats.tweetsBlocked ≤ svc.stats.tweetsScanned) :
    (svc.updateStats now s b).stats.tweetsBlocked ≤
      (svc.updateStats now s b).stats.tweetsScanned := by
  simp only [BackgroundService.updateStats]
  by_cases h : now - svc.stats.lastReset > dayInMs
  · rw [updateCounters_rollover _ _ _ _ h]
    exact hbs
  · rw [updateCounters_accumulate _ _ _ _ (by omega)]
    show svc.stats.tweetsBlocked + b ≤ svc.stats.tweetsScanned + s
    omega

theorem updateStats_blocked_le_scanned_witness :
    ((BackgroundService.mk ⟨10, 3, 0⟩ ⟨none, none⟩).updateStats 3600000 5 1).stats.tweetsBlocked ≤
        ((BackgroundService.mk ⟨10, 3, 0⟩ ⟨none, none⟩).updateStats 3600000 5 1).stats.tweetsScanned ∧
      ((BackgroundService.mk ⟨10, 3, 0⟩ ⟨none, none⟩).updateStats 90000000 5 1).stats.tweetsBlocked ≤
        ((BackgroundService.mk ⟨10, 3, 0⟩ ⟨none, none⟩).updateStats 90000000 5 1).stats.tweetsScanned :=
  ⟨updateStats_blocked_le_scanned (BackgroundService.mk ⟨10, 3, 0⟩ ⟨none, none⟩) 3600000 5 1
      (by decide) (by decide),
   updateStats_blocked_le_scanned (BackgroundService.mk ⟨10, 3, 0⟩ ⟨none, none⟩) 90000000 5 1
      (by decide) (by decide)⟩

/-- C3, as stated, fails: with user-modified settings already stored (here the
defaults with `enabled` switched off), the `onInstalled` handler run with
reason `install`, and `setDefaultSettings` itself, replace the stored
settings by the defaults. -/
theorem setDefaultSettings_overwrites :
    (BackgroundService.mk ⟨0, 0, 0⟩
        ⟨none, some { defaultSettings with enabled := false }⟩).storage.syncSettings.isSome
      = true ∧
    (onInstalled (BackgroundService.mk ⟨0, 0, 0⟩
        ⟨none, some { defaultSettings with enabled := false }⟩) "install").storage.syncSettings
      ≠ some { defaultSettings with enabled := false } ∧
    (BackgroundService.mk ⟨0, 0, 0⟩
        ⟨none, some { defaultSettings with enabled := false }⟩).setDefaultSettings.storage.syncSettings
      = some defaultSettings := by
  refine ⟨rfl, ?_, rfl⟩
  intro h
  have h2 := congrArg (fun o => o.map Settings.enabled) h
  simp [onInstalled, BackgroundService.setDefaultSettings, defaultSettings] at h2

/-- C3, amended: the `onInstalled` handler writes the fixed default settings
exactly when `details.reason` is `install`, whether or not settings are
already stored (it then also writes the in-memory counters to the local
partition); for every other reason, such as `update`, the service and the
store, hence the stored settings, are left as they were. -/
theorem onInstalled_writes_iff_install (svc : BackgroundService) (reason : String) :
    onInstalled svc reason =
      if reason = "install" then
        { stats := svc.stats
          storage := { localStats := some svc.stats, syncSettings := some defaultSettings } }
      else svc := by
  unfold onInstalled BackgroundService.setDefaultSettings
  rfl

/-- C4: for every request whose type is none of `UPDATE_STATS`, `GET_STATS`,
`GET_SETTINGS`, the listener calls `sendResponse` exactly once, before it
returns, with `{error: 'Unknown message type'}`, does not return `true`,
leaves no promise pending, and leaves the counters (and the store)
unchanged. -/
theorem onMessage_unknown_type (svc : BackgroundService) (now : Int) (request : Request)
    (store : Storage)
    (h1 : request.type ≠ "UPDATE_STATS") (h2 : request.type ≠ "GET_STATS")
    (h3 : request.type ≠ "GET_SETTINGS") :
    (onMessage svc now request).replies = [Response.error "Unknown message type"] ∧
      (onMessage svc now request).returnsTrue = false ∧
      (onMessage svc now request).pending = [] ∧
      (onMessage svc now request).allReplies store = [Response.error "Unknown message type"] ∧
      (onMessage svc now request).service = svc := by
  simp [onMessage, Dispatch.allReplies, h1, h2, h3]

theorem onMessage_unknown_type_witness :
    (onMessage (BackgroundService.mk ⟨10, 3, 0⟩ ⟨none, none⟩) 5 ⟨"FOO", 0, 0⟩).replies
        = [Response.error "Unknown message type"] ∧
      (onMessage (BackgroundService.mk ⟨10, 3, 0⟩ ⟨none, none⟩) 5 ⟨"FOO", 0, 0⟩).returnsTrue
        = false ∧
      (onMessage (BackgroundService.mk ⟨10, 3, 0⟩ ⟨none, none⟩) 5 ⟨"FOO", 0, 0⟩).service
        = BackgroundService.mk ⟨10, 3, 0⟩ ⟨none, none⟩ :=
  have h := onMessage_unknown_type (BackgroundService.mk ⟨10, 3, 0⟩ ⟨none, none⟩) 5
    ⟨"FOO", 0, 0⟩ ⟨none, none⟩ (by decide) (by decide) (by decide)
  ⟨h.1, h.2.1, h.2.2.2.2⟩

/-- C5: every recognized message gets exactly one reply.  `UPDATE_STATS` runs
`updateStats(request.scanned, request.blocked)`, replies `{success: true}`
before the listener returns and does not return `true`; `GET_STATS` and
`GET_SETTINGS` send nothing before the listener returns, return `true`, and
send exactly one reply when their promise resolves: `{stats}` with the
in-memory counters, respectively `{settings}` with the stored settings
value. -/
theorem onMessage_recognized (svc : BackgroundService) (now : Int) (request : Request)
    (store : Storage) :
    (request.type = "UPDATE_STATS" →
      onMessage svc now request =
          { service := svc.updateStats now request.scanned request.blocked
            replies := [Response.success true]
            returnsTrue := false
            pending := [] } ∧
        (onMessage svc now request).allReplies store = [Response.success true]) ∧
    (request.type = "GET_STATS" →
      (onMessage svc now request).service = svc ∧
        (onMessage svc now request).replies = [] ∧
        (onMessage svc now request).returnsTrue = true ∧
        (onMessage svc now request).pending.length = 1 ∧
        (onMessage svc now request).allReplies store = [Response.stats svc.stats]) ∧
    (request.type = "GET_SETTINGS" →
      (onMessage svc now request).service = svc ∧
        (onMessage svc now request).replies = [] ∧
        (onMessage svc now request).returnsTrue = true ∧
        (onMessage svc now request).pending.length = 1 ∧
        (onMessage svc now request).allReplies store =
          [Response.settings store.syncSettings]) := by
  refine ⟨?_, ?_, ?_⟩
  · intro h
    simp [onMessage, Dispatch.allReplies, h]
  · intro h
    simp [onMessage, Dispatch.allReplies, Deferred.resolve, BackgroundService.getStats, h]
  · intro h
    simp [onMessage, Dispatch.allReplies, Deferred.resolve, h]

theorem onMessage_recognized_witness :
    (onMessage (BackgroundService.mk ⟨10, 3, 0⟩ ⟨none, none⟩) 3600000
        ⟨"UPDATE_STATS", 5, 1⟩).service.stats = ⟨15, 4, 0⟩ ∧
      (onMessage (BackgroundService.mk ⟨10, 3, 0⟩ ⟨none, none⟩) 3600000
        ⟨"GET_STATS", 0, 0⟩).allReplies ⟨none, some defaultSettings⟩
        = [Response.stats ⟨10, 3, 0⟩] ∧
      (onMessage (BackgroundService.mk ⟨10, 3, 0⟩ ⟨none, none⟩) 3600000
        ⟨"GET_SETTINGS", 0, 0⟩).allReplies ⟨none, some defaultSettings⟩
        = [Response.settings (some defaultSettings)] :=
  ⟨by
    rw [((onMessage_recognized (BackgroundService.mk ⟨10, 3, 0⟩ ⟨none, none⟩) 3600000
      ⟨"UPDATE_STATS", 5, 1⟩ ⟨none, none⟩).1 rfl).1]
    decide,
   ((onMessage_recognized (BackgroundService.mk ⟨10, 3, 0⟩ ⟨none, none⟩) 3600000
      ⟨"GET_STATS", 0, 0⟩ ⟨none, some defaultSettings⟩).2.1 rfl).2.2.2.2,
   ((onMessage_recognized (BackgroundService.mk ⟨10, 3, 0⟩ ⟨none, none⟩) 3600000
      ⟨"GET_SETTINGS", 0, 0⟩ ⟨none, some defaultSettings⟩).2.2 rfl).2.2.2.2⟩

/-- C6, as stated, fails: after a rollover that reports the same deltas the
new snapshot differs from the last-rendered one in `lastReset` only, and the
tick neither replaces the last-rendered snapshot nor redraws. -/
theorem statsRefreshTick_ignores_lastReset :
    (updateCounters ⟨5, 1, 0⟩ 90000000 5 1).toPopupStats ≠ Stats.toPopupStats ⟨5, 1, 0⟩ ∧
      (PopupController.new.init none (some (Stats.toPopupStats ⟨5, 1, 0⟩))).stats
        = some (Stats.toPopupStats ⟨5, 1, 0⟩) ∧
      statsRefreshTick (PopupController.new.init none (some (Stats.toPopupStats ⟨5, 1, 0⟩)))
          (some (updateCounters ⟨5, 1, 0⟩ 90000000 5 1).toPopupStats)
        = some (PopupController.new.init none (some (Stats.toPopupStats ⟨5, 1, 0⟩))) := by
  refine ⟨by decide, rfl, rfl⟩

/-- C6, amended: on every tick the loop replaces the last-rendered snapshot
by the new one and redraws once if and only if `tweetsScanned` or
`tweetsBlocked` of the new snapshot differs from the last-rendered value
(`lastReset` is not compared); otherwise nothing changes.  Hence of two
consecutive identical snapshots the second never redraws, and the first
redraws exactly when one of its two totals differs from the last-rendered
one. -/
theorem statsRefreshTick_redraws_iff_totals_differ (p : PopupController)
    (last : PopupStats) (statsResponse : Option PopupStats) (h : p.stats = some last) :
    ((statsResponse.getD fallbackStats).tweetsScanned ≠ last.tweetsScanned ∨
        (statsResponse.getD fallbackStats).tweetsBlocked ≠ last.tweetsBlocked →
      statsRefreshTick p statsResponse =
        some { p with stats := some (statsResponse.getD fallbackStats)
                      redraws := p.redraws + 1 }) ∧
    (¬ ((statsResponse.getD fallbackStats).tweetsScanned ≠ last.tweetsScanned ∨
        (statsResponse.getD fallbackStats).tweetsBlocked ≠ last.tweetsBlocked) →
      statsRefreshTick p statsResponse = some p) ∧
    (∀ q, statsRefreshTick p statsResponse = some q →
      statsRefreshTick q statsResponse = some q) := by
  refine ⟨?_, ?_, ?_⟩
  · intro hd
    simp only [statsRefreshTick, h]
    rw [if_pos hd]
    rfl
  · intro hd
    simp only [statsRefreshTick, h]
    rw [if_neg hd]
  · intro q hq
    simp only [statsRefreshTick, h] at hq
    split at hq
    · cases hq
      simp [statsRefreshTick, PopupController.updateStats]
    · cases hq
      rename_i hd
      simp only [statsRefreshTick, h]
      rw [if_neg hd]

theorem statsRefreshTick_redraws_iff_totals_differ_witness :
    statsRefreshTick (PopupController.new.init none (some ⟨10, 3, some 0⟩))
        (some ⟨15, 4, some 0⟩)
      = some { PopupController.new.init none (some ⟨10, 3, some 0⟩) with
                stats := some ⟨15, 4, some 0⟩, redraws := 2 } :=
  (statsRefreshTick_redraws_iff_totals_differ
    (PopupController.new.init none (some ⟨10, 3, some 0⟩)) ⟨10, 3, some 0⟩
    (some ⟨15, 4, some 0⟩) rfl).1 (by decide)

theorem beforeUnloadListener_handle (p : PopupController) :
    (beforeUnloadListener p).statsInterval = p.statsInterval := by
  unfold beforeUnloadListener
  split
  · split <;> rfl
  · rfl

theorem beforeUnloadListener_active (p : PopupController) (id : Nat)
    (h : p.statsInterval = some id) (hid : id ≠ 0) :
    (beforeUnloadListener p).activeIntervals = p.activeIntervals.filter (fun t => t != id) := by
  simp [beforeUnloadListener, h, hid, clearInterval]

theorem iterate_beforeUnloadListener (n : Nat) (p : PopupController) (id : Nat)
    (h : p.statsInterval = some id) (hid : id ≠ 0) :
    (Nat.iterate beforeUnloadListener (n + 1) p).activeIntervals =
      p.activeIntervals.filter (fun t => t != id) := by
  induction n generalizing p with
  | zero => exact beforeUnloadListener_active p id h hid
  | succ k ih =>
    have hstep : Nat.iterate beforeUnloadListener (k + 1 + 1) p =
        Nat.iterate beforeUnloadListener (k + 1) (beforeUnloadListener p) := rfl
    rw [hstep, ih (beforeUnloadListener p) ((beforeUnloadListener_handle p).trans h),
      beforeUnloadListener_active p id h hid, List.filter_filter]
    simp

theorem filter_ne_of_not_mem (l : List Nat) (id : Nat) (h : id ∉ l) :
    l.filter (fun t => t != id) = l := by
  rw [List.filter_eq_self]
  intro a ha
  have : a ≠ id := fun e => h (e ▸ ha)
  simpa using this

/-- C8, as stated, fails: after `init` one refresh timer is running; calling
`startStatsRefresh` again leaves two active timers, and the `beforeunload`
listeners then clear only the newer one, so the first timer stays active. -/
theorem startStatsRefresh_twice_leaks_timer :
    (PopupController.new.init none none).activeIntervals = [1] ∧
      (PopupController.new.init none none).startStatsRefresh.activeIntervals = [2, 1] ∧
      (beforeunload (PopupController.new.init none none).startStatsRefresh).activeIntervals
        = [1] := by
  refine ⟨rfl, rfl, rfl⟩

/-- C8, amended: a visibility-regain event starts no timer (the active timers
are the same after it as before).  Each call of `startStatsRefresh` starts
exactly one new timer, without looking at whether one is running, and the
`beforeunload` listeners clear the timer started by the most recent call and
no other.  So after the single start that `init` performs exactly one timer
is active, also after a visibility-regain event, and teardown leaves none. -/
theorem refresh_timer_lifecycle (p : PopupController) (hidden : Bool)
    (settingsResponse : Option Settings) (statsResponse : Option PopupStats)
    (hid : p.nextTimerId ≠ 0) (hfresh : p.nextTimerId ∉ p.activeIntervals) :
    p.startStatsRefresh.activeIntervals = p.nextTimerId :: p.activeIntervals ∧
      (visibilitychange p.startStatsRefresh hidden settingsResponse
        statsResponse).activeIntervals = p.nextTimerId :: p.activeIntervals ∧
      (beforeunload (visibilitychange p.startStatsRefresh hidden settingsResponse
        statsResponse)).activeIntervals = p.activeIntervals := by
  have hvis : ∀ q : PopupController,
      (visibilitychange q hidden settingsResponse statsResponse).activeIntervals
          = q.activeIntervals ∧
        (visibilitychange q hidden settingsResponse statsResponse).statsInterval
          = q.statsInterval ∧
        (visibilitychange q hidden settingsResponse statsResponse).unloadListeners
          = q.unloadListeners := by
    intro q
    unfold visibilitychange
    split
    · split
      · exact ⟨rfl, rfl, rfl⟩
      · exact ⟨rfl, rfl, rfl⟩
    · exact ⟨rfl, rfl, rfl⟩
  obtain ⟨ha, hh, hl⟩ := hvis p.startStatsRefresh
  refine ⟨rfl, ha, ?_⟩
  unfold beforeunload
  rw [hl]
  show (Nat.iterate beforeUnloadListener (p.unloadListeners + 1) _).activeIntervals = _
  rw [iterate_beforeUnloadListener p.unloadListeners _ p.nextTimerId hh hid, ha]
  show (p.nextTimerId :: p.activeIntervals).filter (fun t => t != p.nextTimerId) = _
  rw [List.filter_cons_of_neg (by simp), filter_ne_of_not_mem _ _ hfresh]

theorem refresh_timer_lifecycle_witness :
    (PopupController.new.loadData none none).updateStats.startStatsRefresh.activeIntervals
        = [1] ∧
      (visibilitychange (PopupController.new.loadData none none).updateStats.startStatsRefresh
        false none none).activeIntervals = [1] ∧
      (beforeunload (visibilitychange
        (PopupController.new.loadData none none).updateStats.startStatsRefresh
        false none none)).activeIntervals = [] :=
  refresh_timer_lifecycle (PopupController.new.loadData none none).updateStats false none none
    (by decide) (by decide)

end NoSlop
